import Mathlib

/-!
Verification of the MQTT client/connection facade declared in
include/aws/crt/mqtt/MqttClient.h.

The repository material is a single header: the wrapper classes MqttConnection
and MqttClient, their data members, and the declarations (with noexcept and
access specifiers) of their member functions.  The member-function bodies live
in a translation unit that is not part of the provided sources; where a claim
depends on such a body, the corresponding definition below is modelled from the
specification and says so in its doc comment.  Everything else is transcribed
from the header itself.
-/

namespace AwsCrtMqtt

/-- Kind of a C++ data member, as written in the header.  `owningHandle` stands
for an owning resource wrapper (for instance a unique pointer); no member of
either class in this header has that kind — both handles are a raw pointer or a
by-value C struct. -/
inductive MemberKind
  | rawPtr
  | stdFunction
  | intField
  | boolField
  | byValueStruct
  | owningHandle
deriving DecidableEq

/-- Destroying a member releases a native handle only when the member is an
owning resource wrapper; destroying a raw pointer, a scalar, a by-value C
struct or a std function member releases no native handle (a std function
destructor frees only its own closure storage). -/
def MemberKind.releasesNativeHandleOnDestroy : MemberKind → Bool
  | .owningHandle => true
  | _ => false

/-- Memberwise destruction dereferences a pointer member only when the member
owns its pointee; destroying a raw pointer never touches the pointed-to
object. -/
def MemberKind.destroyTouchesPointee : MemberKind → Bool
  | .owningHandle => true
  | _ => false

/-- A data-member declaration: its name and kind, transcribed from the
header. -/
structure MemberDecl where
  name : String
  kind : MemberKind
deriving DecidableEq

/-- Data members of MqttConnection, transcribed from MqttClient.h lines
151-158: an owning-client back pointer, the native session handle (raw
pointer), three std function callback slots, the last-error code and the
initialization flag. -/
def mqttConnectionMembers : List MemberDecl :=
  [⟨"m_owningClient", .rawPtr⟩,
   ⟨"m_underlyingConnection", .rawPtr⟩,
   ⟨"m_onConnectionFailed", .stdFunction⟩,
   ⟨"m_onConnAck", .stdFunction⟩,
   ⟨"m_onDisconnect", .stdFunction⟩,
   ⟨"m_lastError", .intField⟩,
   ⟨"m_isInit", .boolField⟩]

/-- Data members of MqttClient, transcribed from MqttClient.h lines 203-205:
the engine context held by value, the last-error code and the initialization
flag. -/
def mqttClientMembers : List MemberDecl :=
  [⟨"m_client", .byValueStruct⟩,
   ⟨"m_lastError", .intField⟩,
   ⟨"m_isInit", .boolField⟩]

/-- Names of the members whose destruction releases a native handle under a
defaulted (memberwise) destructor. -/
def destructorReleases (members : List MemberDecl) : List String :=
  (members.filter (fun m => m.kind.releasesNativeHandleOnDestroy)).map (·.name)

/-- How a special member function is declared in the header. -/
inductive SpecialKind
  | defaulted
  | deleted
  | userProvided
deriving DecidableEq

/-- The five special member functions of a class and how each is declared. -/
structure SpecialMembers where
  dtor : SpecialKind
  copyCtor : SpecialKind
  moveCtor : SpecialKind
  copyAssign : SpecialKind
  moveAssign : SpecialKind
deriving DecidableEq

/-- Special members of MqttConnection, transcribed from MqttClient.h lines
71-75: destructor and both move operations defaulted, both copy operations
deleted. -/
def mqttConnectionSpecialMembers : SpecialMembers :=
  { dtor := .defaulted
    copyCtor := .deleted
    moveCtor := .defaulted
    copyAssign := .deleted
    moveAssign := .defaulted }

/-- Special members of MqttClient, transcribed from MqttClient.h lines
186-190: destructor and both move operations declared by the user (defined
outside the provided sources), both copy operations deleted. -/
def mqttClientSpecialMembers : SpecialMembers :=
  { dtor := .userProvided
    copyCtor := .deleted
    moveCtor := .userProvided
    copyAssign := .deleted
    moveAssign := .userProvided }

/-- Access level of a declaration. -/
inductive Access
  | publicAccess
  | privateAccess
deriving DecidableEq

/-- Access of the converting constructor
MqttConnection(MqttClient*, hostName, port, socketOptions, tlsConnOptions),
declared in the private section at MqttClient.h lines 146-149. -/
def mqttConnectionConvertingCtorAccess : Access := .privateAccess

/-- Friend declarations inside MqttConnection (MqttClient.h line 69): only
MqttClient may reach its private members, hence its private constructor. -/
def mqttConnectionFriendDecls : List String := ["MqttClient"]

/-- A member-function declaration: its name and whether the header writes a
noexcept specifier on it. -/
structure MethodDecl where
  name : String
  isNoexcept : Bool
deriving DecidableEq

/-- Public member functions of MqttConnection with their written noexcept
specifiers, transcribed from MqttClient.h lines 77-144 (plus the private
converting constructor, line 149, also noexcept).  Every operation is declared
noexcept except Ping (line 144), which carries no specifier. -/
def mqttConnectionMethodDecls : List MethodDecl :=
  [⟨"operator bool", true⟩,
   ⟨"LastError", true⟩,
   ⟨"SetOnConnectionFailedHandler", true⟩,
   ⟨"SetOnConnAckHandler", true⟩,
   ⟨"SetOnDisconnectHandler", true⟩,
   ⟨"SetWill", true⟩,
   ⟨"SetLogin", true⟩,
   ⟨"Connect", true⟩,
   ⟨"Disconnect", true⟩,
   ⟨"Subscribe", true⟩,
   ⟨"Unsubscribe", true⟩,
   ⟨"Publish", true⟩,
   ⟨"Ping", false⟩,
   ⟨"MqttConnection", true⟩]

/-- Public member functions of MqttClient with their written noexcept
specifiers, transcribed from MqttClient.h lines 184-200: the converting
constructor, the move constructor and move assignment, the validity check,
LastError and NewConnection are all declared noexcept. -/
def mqttClientMethodDecls : List MethodDecl :=
  [⟨"MqttClient", true⟩,
   ⟨"MqttClient(MqttClient&&)", true⟩,
   ⟨"operator=(MqttClient&&)", true⟩,
   ⟨"operator bool", true⟩,
   ⟨"LastError", true⟩,
   ⟨"NewConnection", true⟩]

/-- Value-level state of an MqttConnection, one field per data member of
MqttClient.h lines 151-158.  Pointers are modelled as natural numbers (0 for
null); each std function callback slot is modelled as an optional closure
identity (none for an empty std function). -/
structure MqttConnection where
  m_owningClient : Nat
  m_underlyingConnection : Nat
  m_onConnectionFailed : Option Nat
  m_onConnAck : Option Nat
  m_onDisconnect : Option Nat
  m_lastError : Int
  m_isInit : Bool
deriving DecidableEq

/-- SetOnConnectionFailedHandler (MqttClient.h lines 80-83): move-assigns the
argument into the m_onConnectionFailed slot, overwriting whatever was there. -/
def SetOnConnectionFailedHandler (c : MqttConnection) (onConnectionFailed : Option Nat) :
    MqttConnection :=
  { c with m_onConnectionFailed := onConnectionFailed }

/-- SetOnConnAckHandler (MqttClient.h lines 85-88): move-assigns the argument
into the m_onConnAck slot, overwriting whatever was there. -/
def SetOnConnAckHandler (c : MqttConnection) (onConnAck : Option Nat) :
    MqttConnection :=
  { c with m_onConnAck := onConnAck }

/-- SetOnDisconnectHandler (MqttClient.h lines 90-93): move-assigns the
argument into the m_onDisconnect slot, overwriting whatever was there. -/
def SetOnDisconnectHandler (c : MqttConnection) (onDisconnect : Option Nat) :
    MqttConnection :=
  { c with m_onDisconnect := onDisconnect }

/-- Modelled from the spec: MqttConnection::operator bool (declared at
MqttClient.h line 77, defined outside the provided sources).  The spec ties the
validity check to successful initialization, so it is modelled as reading the
initialization flag. -/
def connectionValid (c : MqttConnection) : Bool := c.m_isInit

/-- MqttConnection::LastError (declared at MqttClient.h line 78, defined
outside the provided sources): returns the stored last-error code. -/
def MqttConnection.LastError (c : MqttConnection) : Int := c.m_lastError

/-- The defaulted move constructor MqttConnection(MqttConnection&&) = default
(MqttClient.h line 73): memberwise move.  The raw-pointer, int and bool
members are copied, so the source keeps them unchanged; the std function
members are moved, the destination receiving the stored closure and the source
left empty (the C++ standard leaves a moved-from std function unspecified; the
claims settled below depend only on the copied scalar members).  Returns
(destination, moved-from source). -/
def moveConstructConnection (c : MqttConnection) : MqttConnection × MqttConnection :=
  (c,
   { c with
      m_onConnectionFailed := none
      m_onConnAck := none
      m_onDisconnect := none })

/-- The defaulted move assignment operator=(MqttConnection&&) = default
(MqttClient.h line 75): the target object becomes a memberwise move of the
source; the moved-from source is left as under the defaulted move constructor.
Returns (target after assignment, moved-from source). -/
def moveAssignConnection (_target c : MqttConnection) : MqttConnection × MqttConnection :=
  moveConstructConnection c

/-- Value-level state of an MqttClient, one field per data member of
MqttClient.h lines 203-205.  The by-value engine context aws_mqtt_client is
modelled as a natural number identifying the engine binding (0 for a cleared
context). -/
structure MqttClient where
  m_client : Nat
  m_lastError : Int
  m_isInit : Bool
deriving DecidableEq

/-- Modelled from the spec: MqttClient::operator bool (declared at MqttClient.h
line 192, defined outside the provided sources): the validity check reflects
successful initialization. -/
def clientValid (c : MqttClient) : Bool := c.m_isInit

/-- MqttClient::LastError (declared at MqttClient.h line 193, defined outside
the provided sources): returns the stored last-error code. -/
def MqttClient.LastError (c : MqttClient) : Int := c.m_lastError

/-- Modelled from the spec: the constructor
MqttClient(const ClientBootstrap&, Allocator*) noexcept (MqttClient.h line
184, defined outside the provided sources).  It attempts to initialize the
native engine context; the argument is the outcome of that native
initialization.  On success the client is initialized with a zero error code;
on failure it records the (nonzero) native error code and stays
uninitialized.  No exception is thrown: the function is total and declared
noexcept. -/
def mkMqttClient (initOutcome : Except Int Nat) : MqttClient :=
  match initOutcome with
  | .ok engineCtx => { m_client := engineCtx, m_lastError := 0, m_isInit := true }
  | .error code => { m_client := 0, m_lastError := code, m_isInit := false }

/-- Modelled from the spec: the user-provided move constructor
MqttClient(MqttClient&&) noexcept (MqttClient.h line 188, defined outside the
provided sources).  Per the spec, moving a client transfers the engine context
to the destination and invalidates the validity check of the moved-from
object.  Returns (destination, moved-from source). -/
def moveConstructClient (c : MqttClient) : MqttClient × MqttClient :=
  (c, { m_client := 0, m_lastError := c.m_lastError, m_isInit := false })

/-- Modelled from the spec: the outcome of handing a request to the external
MQTT engine.  On acceptance the engine assigns a 16-bit packet identifier,
nonzero for acknowledge-requiring operations; on immediate rejection (for
instance, engine not connected) it reports a native error code. -/
inductive SubmissionOutcome
  | accepted (packetId : Nat)
  | rejectedImmediately (errorCode : Int)
deriving DecidableEq

/-- Well-formedness of an engine outcome: an accepted submission carries a
nonzero identifier representable in 16 bits (the engine hands back a uint16_t
packet id). -/
def SubmissionOutcome.WF : SubmissionOutcome → Prop
  | .accepted packetId => 0 < packetId ∧ packetId < 65536
  | .rejectedImmediately _ => True

/-- Modelled from the spec: the uint16_t value the wrapper returns for a
submission — the engine-assigned packet identifier on success, and the zero
sentinel on immediate failure.  The result is reduced modulo 2 to the 16 as
the C++ return type uint16_t demands. -/
def submitReturn : SubmissionOutcome → Nat
  | .accepted packetId => packetId % 65536
  | .rejectedImmediately _ => 0

/-- Modelled from the spec: uint16_t Subscribe(topicFilter, qos, onPublish,
onOpComplete) noexcept (MqttClient.h lines 123-125, defined outside the
provided sources): forwards the request and both handlers to the engine and
returns the packet identifier synchronously, zero on immediate submission
failure. -/
def Subscribe (_c : MqttConnection) (_topicFilter : String) (_qos : Nat)
    (_onPublish _onOpComplete : Option Nat) (outcome : SubmissionOutcome) : Nat :=
  submitReturn outcome

/-- Modelled from the spec: uint16_t Unsubscribe(topicFilter, onOpComplete)
noexcept (MqttClient.h lines 131-132, defined outside the provided sources):
forwards the request to the engine and returns the packet identifier
synchronously, zero on immediate submission failure. -/
def Unsubscribe (_c : MqttConnection) (_topicFilter : String)
    (_onOpComplete : Option Nat) (outcome : SubmissionOutcome) : Nat :=
  submitReturn outcome

/-- Modelled from the spec: uint16_t Publish(topic, qos, retain, payload,
onOpComplete) noexcept (MqttClient.h lines 138-139, defined outside the
provided sources): forwards the request to the engine and returns the packet
identifier synchronously, zero on immediate submission failure. -/
def Publish (_c : MqttConnection) (_topic : String) (_qos : Nat) (_retain : Bool)
    (_payload : List Nat) (_onOpComplete : Option Nat) (outcome : SubmissionOutcome) : Nat :=
  submitReturn outcome

/-- Modelled from the spec: void Ping() (MqttClient.h line 144, defined outside
the provided sources): hands a ping request to the engine; a local failure is
recorded in the last-error code — failure is never signalled by an exception,
only through the error-code channel or callbacks. -/
def Ping (c : MqttConnection) (outcome : SubmissionOutcome) : MqttConnection :=
  match outcome with
  | .accepted _ => c
  | .rejectedImmediately code => { c with m_lastError := code }

/-- Modelled from the spec: the private converting constructor
MqttConnection(MqttClient*, hostName, port, socketOptions, tlsConnOptions)
noexcept (MqttClient.h lines 147-149, defined outside the provided sources):
records the non-owning back pointer to the creating client and the session
handle allocated from the engine, with empty callback slots and a fresh
initialized state. -/
def MqttConnection.mkFromFactory (clientPtr sessionHandle : Nat) : MqttConnection :=
  { m_owningClient := clientPtr
    m_underlyingConnection := sessionHandle
    m_onConnectionFailed := none
    m_onConnAck := none
    m_onDisconnect := none
    m_lastError := 0
    m_isInit := true }

/-- Modelled from the spec: MqttConnection NewConnection(hostName, port,
socketOptions, tlsConnOptions) noexcept (MqttClient.h lines 199-200, defined
outside the provided sources): the factory calls the private converting
constructor — the only code that can, being the sole friend — passing the
address of this client; sessionHandle is the native session the constructor
obtains from the engine. -/
def NewConnection (clientPtr : Nat) (_hostName : String) (_port : Nat)
    (sessionHandle : Nat) : MqttConnection :=
  MqttConnection.mkFromFactory clientPtr sessionHandle

/-- Provenance of MqttConnection objects: the converting constructor is
private and MqttClient is the only friend, so a connection comes into
existence through the factory NewConnection, or from an existing connection by
move construction or move assignment (the public move operations). -/
inductive ConnectionCreated : MqttConnection → Nat → Prop
  | factory (clientPtr : Nat) (hostName : String) (port sessionHandle : Nat) :
      ConnectionCreated (NewConnection clientPtr hostName port sessionHandle) clientPtr
  | movedFrom (c : MqttConnection) (clientPtr : Nat) :
      ConnectionCreated c clientPtr →
      ConnectionCreated (moveConstructConnection c).1 clientPtr
  | moveAssigned (target c : MqttConnection) (targetPtr clientPtr : Nat) :
      ConnectionCreated target targetPtr →
      ConnectionCreated c clientPtr →
      ConnectionCreated (moveAssignConnection target c).1 clientPtr

/-- A concrete connection state used by the counterexamples: a live,
initialized connection with session handle 42 and two registered callbacks. -/
def exampleConn : MqttConnection :=
  { m_owningClient := 1
    m_underlyingConnection := 42
    m_onConnectionFailed := some 3
    m_onConnAck := some 7
    m_onDisconnect := none
    m_lastError := 0
    m_isInit := true }

/-! ## Theorems for the claims -/

/-- C1: Subscribe, Unsubscribe and Publish each return synchronously a 16-bit
packet identifier, nonzero when submission to the engine succeeds and zero
when submission fails immediately. -/
theorem C1_packet_id_convention (c : MqttConnection) (topicFilter topic : String)
    (qos : Nat) (retain : Bool) (payload : List Nat)
    (onPublish onOpComplete : Option Nat) (outcome : SubmissionOutcome)
    (hwf : outcome.WF) :
    Subscribe c topicFilter qos onPublish onOpComplete outcome < 65536 ∧
    Unsubscribe c topicFilter onOpComplete outcome < 65536 ∧
    Publish c topic qos retain payload onOpComplete outcome < 65536 ∧
    (∀ packetId, outcome = SubmissionOutcome.accepted packetId →
      Subscribe c topicFilter qos onPublish onOpComplete outcome ≠ 0 ∧
      Unsubscribe c topicFilter onOpComplete outcome ≠ 0 ∧
      Publish c topic qos retain payload onOpComplete outcome ≠ 0) ∧
    (∀ errorCode, outcome = SubmissionOutcome.rejectedImmediately errorCode →
      Subscribe c topicFilter qos onPublish onOpComplete outcome = 0 ∧
      Unsubscribe c topicFilter onOpComplete outcome = 0 ∧
      Publish c topic qos retain payload onOpComplete outcome = 0) := by
  cases outcome with
  | accepted packetId =>
      obtain ⟨hpos, hlt⟩ := hwf
      simp only [Subscribe, Unsubscribe, Publish, submitReturn]
      have hmod : packetId % 65536 = packetId := Nat.mod_eq_of_lt hlt
      refine ⟨by omega, by omega, by omega, ?_, ?_⟩
      · intro p hp
        exact ⟨by omega, by omega, by omega⟩
      · intro e he
        simp at he
  | rejectedImmediately code =>
      simp only [Subscribe, Unsubscribe, Publish, submitReturn]
      refine ⟨by omega, by omega, by omega, ?_, ?_⟩
      · intro p hp
        simp at hp
      · intro e he
        exact ⟨trivial, trivial, trivial⟩

/-- Witness for C1 at a concrete accepted submission (packet id 7) and a
concrete immediate rejection (error code 5). -/
theorem C1_packet_id_convention_witness :
    Subscribe exampleConn "a/b" 1 (some 3) (some 4) (SubmissionOutcome.accepted 7) ≠ 0 ∧
    Publish exampleConn "a/b" 0 false [1, 2] (some 4)
      (SubmissionOutcome.rejectedImmediately 5) = 0 := by
  refine ⟨?_, ?_⟩
  · exact ((C1_packet_id_convention exampleConn "a/b" "a/b" 1 false [1, 2] (some 3)
      (some 4) (SubmissionOutcome.accepted 7) ⟨by decide, by decide⟩).2.2.2.1 7 rfl).1
  · exact ((C1_packet_id_convention exampleConn "a/b" "a/b" 0 false [1, 2] (some 3)
      (some 4) (SubmissionOutcome.rejectedImmediately 5) trivial).2.2.2.2 5 rfl).2.2

/-- C2: no listed operation propagates an exception — every listed constructor
and operation of MqttConnection and MqttClient except Ping is declared
noexcept in the header, and Ping (whose body lies outside the provided
sources) is modelled from the spec as a total operation that reports failure
only through the last-error code. -/
theorem C2_no_exception_propagation :
    (mqttConnectionMethodDecls.all (fun m => m.name == "Ping" || m.isNoexcept)) = true ∧
    (mqttClientMethodDecls.all (fun m => m.isNoexcept)) = true ∧
    (∀ c code, Ping c (SubmissionOutcome.rejectedImmediately code)
        = { c with m_lastError := code }) ∧
    (∀ c packetId, Ping c (SubmissionOutcome.accepted packetId) = c) :=
  ⟨by decide, by decide, fun _ _ => rfl, fun _ _ => rfl⟩

/-- C3 counterexample: exampleConn is a valid connection, and after the
defaulted move construction the moved-from object still reports valid,
because the defaulted memberwise move copies the scalar members — whereas the
claim says the moved-from validity check returns false. -/
theorem C3_counterexample :
    connectionValid exampleConn = true ∧
    connectionValid (moveConstructConnection exampleConn).2 = true :=
  ⟨rfl, rfl⟩

/-- C3 amended: move construction gives the destination the whole source
state, all live callback registrations included; but the defaulted
MqttConnection move leaves every scalar member of the moved-from object
unchanged, so its validity check keeps its prior value instead of turning
false.  The moved-from MqttClient (user-provided move, modelled from the
spec) does report invalid, its engine context transferred to the
destination. -/
theorem C3_move_semantics (c : MqttConnection) (cl : MqttClient) :
    (moveConstructConnection c).1 = c ∧
    (moveConstructConnection c).2.m_owningClient = c.m_owningClient ∧
    (moveConstructConnection c).2.m_underlyingConnection = c.m_underlyingConnection ∧
    (moveConstructConnection c).2.m_lastError = c.m_lastError ∧
    (moveConstructConnection c).2.m_isInit = c.m_isInit ∧
    connectionValid (moveConstructConnection c).2 = connectionValid c ∧
    (moveConstructClient cl).1 = cl ∧
    clientValid (moveConstructClient cl).2 = false :=
  ⟨rfl, rfl, rfl, rfl, rfl, rfl, rfl, rfl⟩

/-- C4 counterexample: after the defaulted move construction, the destination
and the moved-from object are two distinct connection objects that both store
the same non-null native session handle 42 — at that moment the session
handle does not have a single exclusive holder, against what the claim
asserts. -/
theorem C4_counterexample :
    (moveConstructConnection exampleConn).1.m_underlyingConnection = 42 ∧
    (moveConstructConnection exampleConn).2.m_underlyingConnection = 42 ∧
    (moveConstructConnection exampleConn).1 ≠ (moveConstructConnection exampleConn).2 := by
  refine ⟨rfl, rfl, by decide⟩

/-- C4 amended: both classes are move-only — copy construction and copy
assignment deleted, move construction and move assignment available — and the
engine context keeps a single exclusive owner across client moves (the
moved-from client holds a cleared context and reports invalid); but the
defaulted connection move copies the raw session-handle pointer, so the
moved-from connection still stores it too.  No double release follows at this
layer, because the defaulted connection destructor releases no native
handle. -/
theorem C4_move_only (cl : MqttClient) :
    mqttConnectionSpecialMembers.copyCtor = SpecialKind.deleted ∧
    mqttConnectionSpecialMembers.copyAssign = SpecialKind.deleted ∧
    mqttConnectionSpecialMembers.moveCtor ≠ SpecialKind.deleted ∧
    mqttConnectionSpecialMembers.moveAssign ≠ SpecialKind.deleted ∧
    mqttClientSpecialMembers.copyCtor = SpecialKind.deleted ∧
    mqttClientSpecialMembers.copyAssign = SpecialKind.deleted ∧
    mqttClientSpecialMembers.moveCtor ≠ SpecialKind.deleted ∧
    mqttClientSpecialMembers.moveAssign ≠ SpecialKind.deleted ∧
    (moveConstructClient cl).2.m_client = 0 ∧
    clientValid (moveConstructClient cl).2 = false ∧
    (∀ c : MqttConnection,
      (moveConstructConnection c).2.m_underlyingConnection = c.m_underlyingConnection) ∧
    destructorReleases mqttConnectionMembers = [] :=
  ⟨rfl, rfl, by decide, by decide, rfl, rfl, by decide, by decide, rfl, rfl,
    fun _ => rfl, by decide⟩

/-- C5: each handler setter is a plain overwrite of a single slot — setting h1
and then h2 leaves the connection in the same state as setting h2 alone, and
after a set the slot holds exactly the new handler, for each of the three
stored event kinds. -/
theorem C5_handler_overwrite (c : MqttConnection) (h1 h2 g1 g2 d1 d2 : Option Nat) :
    (SetOnConnectionFailedHandler (SetOnConnectionFailedHandler c h1) h2
        = SetOnConnectionFailedHandler c h2 ∧
      (SetOnConnectionFailedHandler c h1).m_onConnectionFailed = h1) ∧
    (SetOnConnAckHandler (SetOnConnAckHandler c g1) g2 = SetOnConnAckHandler c g2 ∧
      (SetOnConnAckHandler c g1).m_onConnAck = g1) ∧
    (SetOnDisconnectHandler (SetOnDisconnectHandler c d1) d2 = SetOnDisconnectHandler c d2 ∧
      (SetOnDisconnectHandler c d1).m_onDisconnect = d1) :=
  ⟨⟨rfl, rfl⟩, ⟨rfl, rfl⟩, ⟨rfl, rfl⟩⟩

/-- C6 counterexample: MqttConnection stores three std function callback
members — connection-failed, connack, disconnect — not four; in particular no
publish-received or operation-complete handler is a connection member. -/
theorem C6_counterexample :
    (mqttConnectionMembers.filter
        (fun m => m.kind == MemberKind.stdFunction)).length = 3 ∧
    ¬ (mqttConnectionMembers.filter
        (fun m => m.kind == MemberKind.stdFunction)).length = 4 := by
  refine ⟨by decide, by decide⟩

/-- C6 amended: every Connection holds exactly one native session handle, one
non-owning owning-client back pointer, one error code, one initialization
flag, and three optional callback slots (connection-failed, connack,
disconnect); the publish-received and operation-complete handlers are passed
per call to Subscribe, Unsubscribe and Publish rather than stored as
connection members. -/
theorem C6_member_inventory :
    ((mqttConnectionMembers.filter (fun m => m.kind == MemberKind.rawPtr)).map
        (fun m => m.name)) = ["m_owningClient", "m_underlyingConnection"] ∧
    ((mqttConnectionMembers.filter (fun m => m.kind == MemberKind.stdFunction)).map
        (fun m => m.name))
      = ["m_onConnectionFailed", "m_onConnAck", "m_onDisconnect"] ∧
    ((mqttConnectionMembers.filter (fun m => m.kind == MemberKind.intField)).map
        (fun m => m.name)) = ["m_lastError"] ∧
    ((mqttConnectionMembers.filter (fun m => m.kind == MemberKind.boolField)).map
        (fun m => m.name)) = ["m_isInit"] ∧
    mqttConnectionMembers.length = 7 := by
  refine ⟨by decide, by decide, by decide, by decide, by decide⟩

/-- C7: MqttClient construction failure leaves the validity check false and
LastError nonzero while throwing nothing (the constructor is declared
noexcept and modelled total); successful construction leaves the validity
check true. -/
theorem C7_client_construction (code : Int) (engineCtx : Nat) (hcode : code ≠ 0) :
    clientValid (mkMqttClient (Except.error code)) = false ∧
    (mkMqttClient (Except.error code)).LastError ≠ 0 ∧
    clientValid (mkMqttClient (Except.ok engineCtx)) = true ∧
    (mqttClientMethodDecls.filter (fun m => m.name == "MqttClient")).all
      (fun m => m.isNoexcept) = true :=
  ⟨rfl, hcode, rfl, by decide⟩

/-- Witness for C7 at a concrete failed construction (native error code 5)
and a concrete successful one (engine context 9). -/
theorem C7_client_construction_witness :
    clientValid (mkMqttClient (Except.error 5)) = false ∧
    clientValid (mkMqttClient (Except.ok 9)) = true := by
  have h := C7_client_construction 5 9 (by decide)
  exact ⟨h.1, h.2.2.1⟩

/-- C8: the converting constructor of MqttConnection is private and
MqttClient is the sole friend, so every connection originates from the
factory NewConnection (propagated by the public move operations), and every
connection so created carries the non-owning back pointer to the client that
created it. -/
theorem C8_factory_only (c : MqttConnection) (clientPtr : Nat)
    (hcreate : ConnectionCreated c clientPtr) :
    c.m_owningClient = clientPtr ∧
    mqttConnectionConvertingCtorAccess = Access.privateAccess ∧
    mqttConnectionFriendDecls = ["MqttClient"] ∧
    mqttConnectionSpecialMembers.copyCtor = SpecialKind.deleted ∧
    (mqttConnectionMembers.find? (fun m => m.name == "m_owningClient")).map
      (fun m => m.kind) = some MemberKind.rawPtr := by
  refine ⟨?_, rfl, rfl, rfl, by decide⟩
  induction hcreate with
  | factory clientPtr hostName port sessionHandle => rfl
  | movedFrom c clientPtr _ ih => exact ih
  | moveAssigned target c targetPtr clientPtr _ _ _ ih => exact ih

/-- Witness for C8: a connection freshly produced by the factory for the
client at address 9, then move-constructed once, still carries back pointer
9. -/
theorem C8_factory_only_witness :
    (moveConstructConnection (NewConnection 9 "broker.example" 8883 42)).1.m_owningClient
      = 9 :=
  (C8_factory_only _ 9
    (ConnectionCreated.movedFrom _ 9
      (ConnectionCreated.factory 9 "broker.example" 8883 42))).1

/-- C10: the MqttConnection destructor is defaulted; memberwise destruction of
its members — raw pointers, std functions, scalars — releases no native
handle and never dereferences the owning-client or session pointers, so all
handle cleanup is left to the owning client or the external engine. -/
theorem C10_dtor_releases_nothing :
    mqttConnectionSpecialMembers.dtor = SpecialKind.defaulted ∧
    destructorReleases mqttConnectionMembers = [] ∧
    (mqttConnectionMembers.find? (fun m => m.name == "m_underlyingConnection")).map
      (fun m => m.kind) = some MemberKind.rawPtr ∧
    (mqttConnectionMembers.find? (fun m => m.name == "m_owningClient")).map
      (fun m => m.kind) = some MemberKind.rawPtr ∧
    mqttConnectionMembers.all (fun m => !m.kind.destroyTouchesPointee) = true := by
  refine ⟨rfl, by decide, by decide, by decide, by decide⟩

end AwsCrtMqtt
